import Mathlib

/-!
Shallow embedding of the `NotificationService` singleton from
`src/services/notificationService.ts` of the Capstone-App repository.

The store owns three pieces of state: the durable key-value entry
`"notifications"` (modelled as `St.stored`), the debounce timestamp
`lastApiCallTime`, and the subscriber array `listeners` (listeners are
identified by their JavaScript function reference, modelled as a `Nat`).

Collaborator behaviour during one operation (the clock, the identity
provider `authService.getCurrentUser`, the remote endpoint reached through
`makeApiCall`, and the `AsyncStorage` backend) is captured by an `Env`
value.  Fallible JavaScript calls are embedded in `Except Err`; a
try/catch of the source becomes a `match` on the `Except` value.
-/

namespace NotificationStore

/-- The closed `type` enumeration of a notification record. -/
inductive NotifType
  | booking
  | message
  | review
  | system
deriving DecidableEq

/-- The slice of the free-form `data` payload consulted by the code:
only `data?.status` is ever read by the filter. -/
structure NotifData where
  status : Option String := none
deriving DecidableEq

/-- The `Notification` interface of the source file. -/
structure Notification where
  id : String
  type : NotifType
  title : String
  message : String
  time : String
  isRead : Bool
  action : Option String := none
  data : Option NotifData := none
  userId : Option String := none
deriving DecidableEq

/-- The user object returned by the identity collaborator
(`authService.getCurrentUser`). -/
structure User where
  id : String
  token : Option String := none
  userType : Option String := none
  role : Option String := none
deriving DecidableEq

/-- Behaviour of the identity collaborator during one operation:
the `await import / getCurrentUser` chain throws, resolves to `null`,
or resolves to a user object. -/
inductive UserRes
  | fails
  | noUser
  | found (u : User)
deriving DecidableEq

/-- One remote notification record as delivered by
`GET /api/notifications/` (`any`-typed in the source, hence the
optional fields). -/
structure ApiNotif where
  id : Nat
  type : Option NotifType := none
  title : Option String := none
  message : Option String := none
  created_at : String
  read_at : Option String := none
  data : Option NotifData := none
deriving DecidableEq

/-- Behaviour of the remote fetch endpoint during one operation. -/
inductive ApiBehavior
  | throws
  | notOk
  | okNoSuccess
  | okList (ns : List ApiNotif)
deriving DecidableEq

/-- Errors of the embedded fallible calls (JavaScript exceptions). -/
inductive Err
  | storage
  | user
  | api
deriving DecidableEq

/-- Collaborator behaviour for a single public operation. -/
structure Env where
  now : Nat
  nowLocale : String
  user : UserRes
  api : ApiBehavior
  apiPutThrows : Bool
  storageGetFails : Bool
  storageSetFails : Bool
  storageRemoveFails : Bool
deriving DecidableEq

/-- The store's state: durable storage content under the
`"notifications"` key (`none` = key absent), the debounce timestamp, and
the subscriber array. -/
structure St where
  stored : Option (List Notification) := none
  lastApiCallTime : Nat := 0
  listeners : List Nat := []
deriving DecidableEq

/-- A sequence of broadcast events; each event delivers one list to all
current subscribers. -/
abbrev Broadcasts := List (List Notification)

/-- The debounce interval `apiCallDebounceMs = 3000`. -/
def apiCallDebounceMs : Nat := 3000

/-- JavaScript truthiness of an optional string value
(`undefined` and `""` are falsy). -/
def truthyS : Option String → Bool
  | some s => decide (s ≠ "")
  | none => false

/-- JavaScript `a || b` for an optional string `a` with default `b`. -/
def jsOrString (o : Option String) (dflt : String) : String :=
  match o with
  | some s => if s = "" then dflt else s
  | none => dflt

/-- JavaScript `s.includes(pat)` substring test. -/
def includes (s pat : String) : Bool := decide (pat.toList <:+: s.toList)

/-- Embeds `getCurrentUser`: dynamic import of the auth service followed by
`authService.getCurrentUser()`; the whole chain may throw. -/
def getCurrentUser (env : Env) : Except Err (Option User) :=
  match env.user with
  | .fails => .error .user
  | .noUser => .ok none
  | .found u => .ok (some u)

/-- Embeds `AsyncStorage.getItem('notifications')` followed by
`stored ? JSON.parse(stored) : []`. -/
def getStoredList (env : Env) (s : St) : Except Err (List Notification) :=
  if env.storageGetFails then .error .storage
  else .ok (s.stored.getD [])

/-- The `isPetSitter` test:
`user.userType === 'pet_sitter' || user.role === 'pet_sitter'`. -/
def isPetSitter (user : User) : Bool :=
  decide (user.userType = some "pet_sitter") || decide (user.role = some "pet_sitter")

/-- The per-notification predicate of the `notifications.filter` callback
inside `filterNotificationsByUserType`. -/
def filterPredicate (user : User) (n : Notification) : Bool :=
  if truthyS n.userId then
    decide (n.userId = some user.id)
  else if isPetSitter user then
    decide (n.type = .booking) || decide (n.type = .message) ||
      decide (n.type = .review) || decide (n.type = .system)
  else
    let isBookingWithStatus := decide (n.type = .booking) &&
      (decide (n.data.bind NotifData.status = some "confirmed") ||
       decide (n.data.bind NotifData.status = some "cancelled") ||
       includes n.title "confirmed" || includes n.title "cancelled")
    let isMessageOrSystem := decide (n.type = .message) || decide (n.type = .system)
    isBookingWithStatus || isMessageOrSystem

/-- Embeds `filterNotificationsByUserType`: resolve the user (its own try/catch
returns the input unchanged on failure), return the input when no user is
resolved, else filter by `filterPredicate`. -/
def filterNotificationsByUserType (env : Env) (notifications : List Notification) :
    List Notification :=
  match getCurrentUser env with
  | .error _ => notifications
  | .ok none => notifications
  | .ok (some user) => notifications.filter (filterPredicate user)

/-- Token resolution inside the remote calls: `user.token` when truthy,
otherwise the two hardcoded test tokens keyed by user id, otherwise
none (the call returns without contacting the endpoint). -/
def resolveToken (user : User) : Option String :=
  if truthyS user.token then user.token
  else if user.id = "5" then some "64|dTO5Gio05Om1Buxtkta02gVpvQnetCTMrofsLjeudda0034b"
  else if user.id = "21" then some "67|uCtobaBZatzbzDOeK8k1DytVHby0lpa07ERJJczu3cdfa507"
  else none

/-- Conversion of one remote record to the local shape, as in the
`data.notifications.map` of `fetchNotificationsFromAPI`. -/
def convertApiNotif (apiNotif : ApiNotif) : Notification :=
  { id := Nat.repr apiNotif.id
    type := apiNotif.type.getD NotifType.system
    title := jsOrString apiNotif.title "Notification"
    message := apiNotif.message.getD ""
    time := apiNotif.created_at
    isRead := truthyS apiNotif.read_at
    data := apiNotif.data
    action := none
    userId := none }

/-- Embeds `fetchNotificationsFromAPI`.  The whole body sits in a try/catch that
returns `[]`, so the embedding is total; the third component records
whether `makeApiCall` was invoked.  Note the debounce timestamp is
written before the user and token checks. -/
def fetchNotificationsFromAPI (env : Env) (s : St) : List Notification × St × Bool :=
  if env.now - s.lastApiCallTime < apiCallDebounceMs then ([], s, false)
  else
    let s1 : St := { s with lastApiCallTime := env.now }
    match getCurrentUser env with
    | .error _ => ([], s1, false)
    | .ok none => ([], s1, false)
    | .ok (some user) =>
      match resolveToken user with
      | none => ([], s1, false)
      | some _token =>
        match env.api with
        | .throws => ([], s1, true)
        | .notOk => ([], s1, true)
        | .okNoSuccess => ([], s1, true)
        | .okList apiNotifs => (apiNotifs.map convertApiNotif, s1, true)

/-- Embeds `saveNotifications`: `setItem` then `notifyListeners(notifications)`
with the just-saved (unfiltered) list, all inside a try/catch that
swallows the storage error. -/
def saveNotifications (env : Env) (s : St) (notifications : List Notification) :
    St × Broadcasts :=
  if env.storageSetFails then (s, [])
  else ({ s with stored := some notifications }, [notifications])

/-- Embeds `getNotifications` (the public `list()` operation). -/
def getNotifications (env : Env) (s : St) :
    Except Err (List Notification × St × Broadcasts) :=
  let fetched := fetchNotificationsFromAPI env s
  let apiNotifications := fetched.1
  let s1 := fetched.2.1
  if 0 < apiNotifications.length then
    let saved := saveNotifications env s1 apiNotifications
    .ok (filterNotificationsByUserType env apiNotifications, saved.1, saved.2)
  else
    match getStoredList env s1 with
    | .ok localNotifications =>
      .ok (filterNotificationsByUserType env localNotifications, s1, [])
    | .error _ =>
      match getStoredList env s1 with
      | .ok notifications =>
        .ok (filterNotificationsByUserType env notifications, s1, [])
      | .error _ => .ok ([], s1, [])

/-- Embeds `markAsReadOnAPI`: no internal try/catch, so a throwing
identity-service load or a throwing `makeApiCall` propagates; a missing user or token
and a non-2xx response return normally. -/
def markAsReadOnAPI (env : Env) : Except Err Unit :=
  match getCurrentUser env with
  | .error e => .error e
  | .ok none => .ok ()
  | .ok (some user) =>
    match resolveToken user with
    | none => .ok ()
    | some _token => if env.apiPutThrows then .error .api else .ok ()

/-- Embeds `markAllAsReadOnAPI`: same structure as `markAsReadOnAPI` against the
mark-all endpoint. -/
def markAllAsReadOnAPI (env : Env) : Except Err Unit :=
  match getCurrentUser env with
  | .error e => .error e
  | .ok none => .ok ()
  | .ok (some user) =>
    match resolveToken user with
    | none => .ok ()
    | some _token => if env.apiPutThrows then .error .api else .ok ()

/-- One step of `AsyncStorage.setItem('notifications', ...)` with no
surrounding try/catch: the mutation operations below use it directly. -/
def setStoredList (env : Env) (s : St) (notifications : List Notification) :
    Except Err St :=
  if env.storageSetFails then .error .storage
  else .ok { s with stored := some notifications }

/-- Embeds `markAsRead`: try/catch around the remote call only, then an
unprotected read-modify-write of storage and a filtered broadcast. -/
def markAsRead (env : Env) (s : St) (notificationId : String) :
    Except Err (St × Broadcasts) :=
  let _tryRemote : Except Err Unit := markAsReadOnAPI env
  match getStoredList env s with
  | .error e => .error e
  | .ok allNotifications =>
    let updated := allNotifications.map fun n =>
      if n.id = notificationId then { n with isRead := true } else n
    match setStoredList env s updated with
    | .error e => .error e
    | .ok s1 => .ok (s1, [filterNotificationsByUserType env updated])

/-- Embeds `markAllAsRead`: same shape as `markAsRead` with an unconditional
`isRead := true` map. -/
def markAllAsRead (env : Env) (s : St) : Except Err (St × Broadcasts) :=
  let _tryRemote : Except Err Unit := markAllAsReadOnAPI env
  match getStoredList env s with
  | .error e => .error e
  | .ok allNotifications =>
    let updated := allNotifications.map fun n => { n with isRead := true }
    match setStoredList env s updated with
    | .error e => .error e
    | .ok s1 => .ok (s1, [filterNotificationsByUserType env updated])

/-- Input of `addNotification`: `Omit<Notification, 'id'|'time'|'isRead'>`
(the caller may still supply `userId`). -/
structure NewNotification where
  type : NotifType
  title : String
  message : String
  action : Option String := none
  data : Option NotifData := none
  userId : Option String := none
deriving DecidableEq

/-- Input of `addNotificationForUser`:
`Omit<Notification, 'id'|'time'|'isRead'|'userId'>`. -/
structure NewUserNotification where
  type : NotifType
  title : String
  message : String
  action : Option String := none
  data : Option NotifData := none
deriving DecidableEq

/-- Embeds `addNotification`: unprotected storage read, id generated as
`Date.now().toString()`, `time = new Date().toLocaleString()`, prepend,
unprotected storage write, filtered broadcast. -/
def addNotification (env : Env) (s : St) (notification : NewNotification) :
    Except Err (Notification × St × Broadcasts) :=
  match getStoredList env s with
  | .error e => .error e
  | .ok allNotifications =>
    let newNotification : Notification :=
      { id := Nat.repr env.now
        type := notification.type
        title := notification.title
        message := notification.message
        time := env.nowLocale
        isRead := false
        action := notification.action
        data := notification.data
        userId := notification.userId }
    let all1 := newNotification :: allNotifications
    match setStoredList env s all1 with
    | .error e => .error e
    | .ok s1 =>
      .ok (newNotification, s1, [filterNotificationsByUserType env all1])

/-- Embeds `addNotificationForUser`: as `addNotification` with `userId` set to
the targeted user after the spread. -/
def addNotificationForUser (env : Env) (s : St) (userId : String)
    (notification : NewUserNotification) :
    Except Err (Notification × St × Broadcasts) :=
  match getStoredList env s with
  | .error e => .error e
  | .ok allNotifications =>
    let newNotification : Notification :=
      { id := Nat.repr env.now
        type := notification.type
        title := notification.title
        message := notification.message
        time := env.nowLocale
        isRead := false
        action := notification.action
        data := notification.data
        userId := some userId }
    let all1 := newNotification :: allNotifications
    match setStoredList env s all1 with
    | .error e => .error e
    | .ok s1 =>
      .ok (newNotification, s1, [filterNotificationsByUserType env all1])

/-- Embeds `deleteNotification`: unprotected read, `filter(n => n.id !==
notificationId)`, unprotected write, filtered broadcast. -/
def deleteNotification (env : Env) (s : St) (notificationId : String) :
    Except Err (St × Broadcasts) :=
  match getStoredList env s with
  | .error e => .error e
  | .ok allNotifications =>
    let updated := allNotifications.filter fun n => decide (n.id ≠ notificationId)
    match setStoredList env s updated with
    | .error e => .error e
    | .ok s1 => .ok (s1, [filterNotificationsByUserType env updated])

/-- Embeds `getUnreadCount`: `(await getNotifications()).filter(n =>
!n.isRead).length`. -/
def getUnreadCount (env : Env) (s : St) : Except Err (Nat × St × Broadcasts) :=
  match getNotifications env s with
  | .error e => .error e
  | .ok (notifications, s1, bs) =>
    .ok ((notifications.filter fun n => !n.isRead).length, s1, bs)

/-- Embeds `clearAllNotifications`: unprotected `removeItem`, then broadcast the
empty list. -/
def clearAllNotifications (env : Env) (s : St) : Except Err (St × Broadcasts) :=
  if env.storageRemoveFails then .error .storage
  else .ok ({ s with stored := none }, [[]])

/-- Embeds `refreshNotifications`: reset the debounce timestamp, then the body of
`getNotifications`, but the catch block re-reads storage without its own
protection, so a second storage failure propagates. -/
def refreshNotifications (env : Env) (s : St) :
    Except Err (List Notification × St × Broadcasts) :=
  let s0 : St := { s with lastApiCallTime := 0 }
  let fetched := fetchNotificationsFromAPI env s0
  let apiNotifications := fetched.1
  let s1 := fetched.2.1
  if 0 < apiNotifications.length then
    let saved := saveNotifications env s1 apiNotifications
    .ok (filterNotificationsByUserType env apiNotifications, saved.1, saved.2)
  else
    match getStoredList env s1 with
    | .ok localNotifications =>
      .ok (filterNotificationsByUserType env localNotifications, s1, [])
    | .error _ =>
      match getStoredList env s1 with
      | .ok notifications =>
        .ok (filterNotificationsByUserType env notifications, s1, [])
      | .error e => .error e

/-- Embeds `subscribe(listener)`: push onto the listener array.  A listener is
identified by its function reference. -/
def subscribe (s : St) (listener : Nat) : St :=
  { s with listeners := s.listeners ++ [listener] }

/-- The closure returned by `subscribe`:
`this.listeners = this.listeners.filter(l => l !== listener)`. -/
def unsubscribe (s : St) (listener : Nat) : St :=
  { s with listeners := s.listeners.filter fun l => decide (l ≠ listener) }

/-- Embeds `notifyListeners`: deliver one payload to every registered listener,
in registration order. -/
def notifyListeners (s : St) (notifications : List Notification) :
    List (Nat × List Notification) :=
  s.listeners.map fun l => (l, notifications)

/-! Concrete collaborator behaviours and inputs used to evaluate the
operations on explicit runs. -/

/-- A benign environment: clock at 5, no user resolved, remote not ok,
storage fully working. -/
def env4same : Env :=
  { now := 5, nowLocale := "t5", user := .noUser, api := .notOk, apiPutThrows := false
    storageGetFails := false, storageSetFails := false, storageRemoveFails := false }

/-- The same behaviour at clock instant 1 with locale rendering t1. -/
def env4a : Env := { env4same with now := 1, nowLocale := "t1" }

/-- The same behaviour at clock instant 2. -/
def env4b : Env := { env4same with now := 2 }

/-- A fresh store state: durable key absent, debounce at epoch, no
subscribers. -/
def st4 : St := {}

/-- An untargeted append input. -/
def new4 : NewNotification := { type := .message, title := "a", message := "b" }

/-- A targeted append input. -/
def new4u : NewUserNotification := { type := .message, title := "a", message := "b" }

/-- The record created by `addNotification env4a st4 new4`. -/
def n4a : Notification :=
  { id := "1", type := .message, title := "a", message := "b", time := "t1", isRead := false }

/-- The record created by `addNotification env4b st4 new4`. -/
def n4b : Notification :=
  { id := "2", type := .message, title := "a", message := "b", time := "t5", isRead := false }

/-- The record created by `addNotificationForUser env4b st4 "9" new4u`. -/
def n4u : Notification :=
  { id := "2", type := .message, title := "a", message := "b", time := "t5", isRead := false
    userId := some "9" }

/-- An environment whose durable-store reads throw. -/
def envGetFails : Env := { env4same with storageGetFails := true }

/-- An environment at clock instant 3000 with no resolved identity. -/
def envAt3000 : Env := { env4same with now := 3000 }

/-- An environment at clock instant 3001 with no resolved identity. -/
def envAt3001 : Env := { env4same with now := 3001 }

/-- An environment at clock instant 3001 where the identity with the
hardcoded test credential has become available. -/
def envUserAt3001 : Env :=
  { env4same with now := 3001, user := .found { id := "5" }, api := .okList [] }

/-- The store state after a `list()` call of `envAt3000` on a fresh
store: only the debounce timestamp advanced. -/
def stPost3000 : St := { stored := none, lastApiCallTime := 3000, listeners := [] }

/-- A pet-owner identity with id U2 and no token. -/
def userOwner : User := { id := "U2", userType := some "pet_owner" }

/-- A pet-owner identity with id U2 and a bearer token. -/
def userOwnerTok : User := { id := "U2", token := some "tok", userType := some "pet_owner" }

/-- A working environment that resolves the pet-owner identity. -/
def envOwner : Env := { env4same with user := .found userOwner }

/-- A notification whose `userId` field is set to the empty string. -/
def nEmptyTarget : Notification :=
  { id := "1", type := .message, title := "t", message := "m", time := "x", isRead := false
    userId := some "" }

/-- A notification targeted at U2. -/
def nTargeted : Notification :=
  { id := "2", type := .review, title := "t", message := "m", time := "x", isRead := false
    userId := some "U2" }

/-- The pet-owner visibility rule exactly as the specification words it:
type message or system, or type booking with a confirmed/cancelled
status or a title containing "confirmed" or "cancelled". -/
def specOwnerVisible (n : Notification) : Prop :=
  n.type = .message ∨ n.type = .system ∨
    (n.type = .booking ∧
      (n.data.bind NotifData.status = some "confirmed" ∨
       n.data.bind NotifData.status = some "cancelled" ∨
       includes n.title "confirmed" = true ∨ includes n.title "cancelled" = true))

/-- A booking notification whose payload status is confirmed. -/
def nBookConf : Notification :=
  { id := "3", type := .booking, title := "T", message := "m", time := "x", isRead := false
    data := some { status := some "confirmed" } }

/-- A booking notification with no status and a neutral title. -/
def nBookPlain : Notification :=
  { id := "4", type := .booking, title := "Booking update", message := "m", time := "x"
    isRead := false }

/-- One remote review record. -/
def apiRev : ApiNotif := { id := 9, type := some .review, created_at := "t0" }

/-- The local shape of `apiRev` after conversion. -/
def nRev : Notification :=
  { id := "9", type := .review, title := "Notification", message := "", time := "t0"
    isRead := false }

/-- An environment where the pet owner U2 holds a token and the remote
feed returns one review record, outside the debounce window. -/
def envC2 : Env :=
  { env4same with now := 5000, user := .found userOwnerTok, api := .okList [apiRev] }

/-! Helper lemmas. -/

theorem isOk_ok {α : Type} (x : α) : (Except.ok x : Except Err α).isOk = true := rfl

theorem isOk_error {α : Type} (e : Err) :
    (Except.error e : Except Err α).isOk = false := rfl

/-! Helper lemmas: injectivity of the decimal rendering `Nat.repr`, used
for the generated notification ids `Date.now().toString()`. -/

theorem digitChar_inj_lt : ∀ a < 10, ∀ b < 10,
    Nat.digitChar a = Nat.digitChar b → a = b := by decide

theorem map_digitChar_inj : ∀ l1 l2 : List Nat,
    (∀ x ∈ l1, x < 10) → (∀ x ∈ l2, x < 10) →
    l1.map Nat.digitChar = l2.map Nat.digitChar → l1 = l2 := by
  intro l1
  induction l1 with
  | nil => intro l2 _ _ h; cases l2 <;> simp_all
  | cons a t ih =>
    intro l2 h1 h2 h
    cases l2 with
    | nil => simp_all
    | cons b t2 =>
      simp only [List.map_cons, List.cons.injEq] at h
      have ha : a = b :=
        digitChar_inj_lt a (h1 a (by simp)) b (h2 b (by simp)) h.1
      have ht : t = t2 :=
        ih t2 (fun x hx => h1 x (by simp [hx])) (fun x hx => h2 x (by simp [hx])) h.2
      simp [ha, ht]

theorem toDigitsCore_eq_digits : ∀ (f n : Nat) (acc : List Char), n ≠ 0 → n < f →
    Nat.toDigitsCore 10 f n acc = ((Nat.digits 10 n).map Nat.digitChar).reverse ++ acc := by
  intro f
  induction f with
  | zero => intro n acc h0 hf; omega
  | succ f ih =>
    intro n acc h0 hf
    by_cases hq : n / 10 = 0
    · simp only [Nat.toDigitsCore, hq, if_true]
      rw [Nat.digits_def' (by norm_num : (1 : Nat) < 10) (Nat.pos_of_ne_zero h0), hq,
        Nat.digits_zero]
      simp
    · simp only [Nat.toDigitsCore, hq, if_false]
      have hlt : n / 10 < n := Nat.div_lt_self (Nat.pos_of_ne_zero h0) (by norm_num)
      rw [ih (n / 10) (Nat.digitChar (n % 10) :: acc) hq (by omega)]
      rw [Nat.digits_def' (by norm_num : (1 : Nat) < 10) (Nat.pos_of_ne_zero h0)]
      simp

theorem asString_inj (l1 l2 : List Char) (h : l1.asString = l2.asString) : l1 = l2 := by
  simpa [List.asString] using congrArg String.data h

theorem repr_eq_digits (n : Nat) (h : n ≠ 0) :
    Nat.repr n = (((Nat.digits 10 n).map Nat.digitChar).reverse).asString := by
  unfold Nat.repr Nat.toDigits
  rw [toDigitsCore_eq_digits (n + 1) n [] h (Nat.lt_succ_self n)]
  simp

theorem digits_eq_of_map_eq (m n : Nat)
    (h : (Nat.digits 10 m).map Nat.digitChar = (Nat.digits 10 n).map Nat.digitChar) :
    m = n := by
  have hd : Nat.digits 10 m = Nat.digits 10 n :=
    map_digitChar_inj _ _
      (fun x hx => Nat.digits_lt_base (by norm_num) hx)
      (fun x hx => Nat.digits_lt_base (by norm_num) hx) h
  have hm := Nat.ofDigits_digits 10 m
  rw [hd, Nat.ofDigits_digits] at hm
  exact hm.symm

theorem nat_repr_injective : Function.Injective Nat.repr := by
  intro m n h
  rcases Nat.eq_zero_or_pos m with hm | hm
  · rcases Nat.eq_zero_or_pos n with hn | hn
    · omega
    · exfalso
      subst hm
      rw [repr_eq_digits n (by omega)] at h
      have hchars : (['0'] : List Char) = ((Nat.digits 10 n).map Nat.digitChar).reverse :=
        asString_inj _ _ h
      have hmap : (Nat.digits 10 n).map Nat.digitChar = ([0] : List Nat).map Nat.digitChar := by
        have := congrArg List.reverse hchars
        simpa using this.symm
      have hdig : Nat.digits 10 n = [0] :=
        map_digitChar_inj _ _ (fun x hx => Nat.digits_lt_base (by norm_num) hx)
          (by intro x hx; simp at hx; omega) hmap
      have hn0 := Nat.ofDigits_digits 10 n
      rw [hdig] at hn0
      simp [Nat.ofDigits] at hn0
      omega
  · rcases Nat.eq_zero_or_pos n with hn | hn
    · exfalso
      subst hn
      rw [repr_eq_digits m (by omega)] at h
      have hchars : ((Nat.digits 10 m).map Nat.digitChar).reverse = (['0'] : List Char) :=
        asString_inj _ _ h
      have hmap : (Nat.digits 10 m).map Nat.digitChar = ([0] : List Nat).map Nat.digitChar := by
        have := congrArg List.reverse hchars
        simpa using this
      have hdig : Nat.digits 10 m = [0] :=
        map_digitChar_inj _ _ (fun x hx => Nat.digits_lt_base (by norm_num) hx)
          (by intro x hx; simp at hx; omega) hmap
      have hm0 := Nat.ofDigits_digits 10 m
      rw [hdig] at hm0
      simp [Nat.ofDigits] at hm0
      omega
    · rw [repr_eq_digits m (by omega), repr_eq_digits n (by omega)] at h
      exact digits_eq_of_map_eq m n (List.reverse_injective (asString_inj _ _ h))

/-! Helper lemmas describing successful runs of the append operations. -/

theorem addNotification_ok (env : Env) (s : St) (p : NewNotification)
    (r : Notification × St × Broadcasts)
    (h : addNotification env s p = .ok r) :
    r.1.id = Nat.repr env.now ∧ r.2.1.stored = some (r.1 :: s.stored.getD []) := by
  unfold addNotification getStoredList setStoredList at h
  by_cases hg : env.storageGetFails <;> simp [hg] at h
  by_cases hs : env.storageSetFails <;> simp [hs] at h
  subst h
  simp

theorem addNotificationForUser_ok (env : Env) (s : St) (uid : String)
    (q : NewUserNotification) (r : Notification × St × Broadcasts)
    (h : addNotificationForUser env s uid q = .ok r) :
    r.1.id = Nat.repr env.now ∧ r.2.1.stored = some (r.1 :: s.stored.getD []) := by
  unfold addNotificationForUser getStoredList setStoredList at h
  by_cases hg : env.storageGetFails <;> simp [hg] at h
  by_cases hs : env.storageSetFails <;> simp [hs] at h
  subst h
  simp

/-- C4, counterexample: two `addNotification` calls issued at the same
clock tick (`Date.now() = 5`) both generate the id `"5"`, and the stored
list afterwards holds two entries with the same id, so the ids are
neither pairwise distinct nor unique within the stored list. -/
theorem claim4_counterexample :
    ((addNotification env4same st4 new4).toOption.map fun r => r.1.id) = some "5" ∧
    (((addNotification env4same st4 new4).toOption.bind fun r =>
        (addNotification env4same r.2.1 new4).toOption).map fun r => r.1.id) = some "5" ∧
    (((addNotification env4same st4 new4).toOption.bind fun r =>
        (addNotification env4same r.2.1 new4).toOption).map fun r =>
        (r.2.1.stored.getD []).map Notification.id) = some ["5", "5"] :=
  ⟨rfl, rfl, rfl⟩

/-- C4, amended: ids are the decimal rendering of the creation instant,
so append calls issued at pairwise-distinct clock instants create
pairwise-distinct ids (for both the untargeted and the targeted append),
and an append whose instant renders to an id not already present
preserves id-uniqueness of the stored list. -/
theorem claim4_amended
    (env1 env2 : Env) (s1 s2 : St) (p1 p2 : NewNotification)
    (uid : String) (q : NewUserNotification)
    (r1 r2 r3 : Notification × St × Broadcasts)
    (h1 : addNotification env1 s1 p1 = .ok r1)
    (h2 : addNotification env2 s2 p2 = .ok r2)
    (h3 : addNotificationForUser env2 s2 uid q = .ok r3)
    (hne : env1.now ≠ env2.now) :
    r1.1.id ≠ r2.1.id ∧ r1.1.id ≠ r3.1.id ∧
    (Nat.repr env1.now ∉ (s1.stored.getD []).map Notification.id →
      ((s1.stored.getD []).map Notification.id).Nodup →
      ((r1.2.1.stored.getD []).map Notification.id).Nodup) := by
  obtain ⟨hid1, hst1⟩ := addNotification_ok env1 s1 p1 r1 h1
  obtain ⟨hid2, _⟩ := addNotification_ok env2 s2 p2 r2 h2
  obtain ⟨hid3, _⟩ := addNotificationForUser_ok env2 s2 uid q r3 h3
  refine ⟨?_, ?_, ?_⟩
  · rw [hid1, hid2]
    exact fun hc => hne (nat_repr_injective hc)
  · rw [hid1, hid3]
    exact fun hc => hne (nat_repr_injective hc)
  · intro hmem hnd
    have hn : ((r1.1 :: s1.stored.getD []).map Notification.id).Nodup := by
      simp only [List.map_cons, hid1]
      exact List.nodup_cons.mpr ⟨hmem, hnd⟩
    rw [hst1]
    simpa using hn

/-- C4, witness: the amended theorem applied to two appends at instants 1
and 2 shows their created ids differ. -/
theorem claim4_witness : n4a.id ≠ n4b.id :=
  (claim4_amended env4a env4b st4 st4 new4 new4 "9" new4u
    (n4a, { stored := some [n4a] }, [[n4a]])
    (n4b, { stored := some [n4b] }, [[n4b]])
    (n4u, { stored := some [n4u] }, [[n4u]])
    rfl rfl rfl (by decide)).1

/-- C1, counterexample: with a failing durable-store read (and every
other collaborator behaving), `deleteNotification` propagates the storage
exception to its caller instead of terminating in a safe default, so not
every public operation is exception-free. -/
theorem claim1_counterexample :
    deleteNotification envGetFails st4 "1" = .error .storage := rfl

/-- C1, amended: `list()` and `unreadCount()` never propagate an
exception under any collaborator behaviour; the mutation operations
contain every remote-endpoint and identity failure but propagate
durable-store failures: `markRead`, `markAllRead`, the two appends and
`delete` throw when the storage read or write throws, `clearAll` throws
when the storage delete throws, and `refresh()` throws when the storage
read of its fallback path throws. -/
theorem claim1_amended (env : Env) (s : St) (nid uid : String)
    (p : NewNotification) (q : NewUserNotification) :
    (getNotifications env s).isOk = true ∧
    (getUnreadCount env s).isOk = true ∧
    (env.storageGetFails = false → env.storageSetFails = false →
      (markAsRead env s nid).isOk = true ∧
      (markAllAsRead env s).isOk = true ∧
      (addNotification env s p).isOk = true ∧
      (addNotificationForUser env s uid q).isOk = true ∧
      (deleteNotification env s nid).isOk = true) ∧
    (env.storageRemoveFails = false → (clearAllNotifications env s).isOk = true) ∧
    (env.storageGetFails = false → (refreshNotifications env s).isOk = true) := by
  have hget : (getNotifications env s).isOk = true := by
    unfold getNotifications getStoredList
    by_cases hg : env.storageGetFails <;> simp [hg] <;> split <;> simp [isOk_ok]
  refine ⟨hget, ?_, ?_, ?_, ?_⟩
  · unfold getUnreadCount
    revert hget
    cases getNotifications env s with
    | error e => simp [Except.isOk, Except.toBool]
    | ok r => simp [isOk_ok]
  · intro hg hs
    refine ⟨?_, ?_, ?_, ?_, ?_⟩ <;>
      simp [markAsRead, markAllAsRead, addNotification, addNotificationForUser,
        deleteNotification, getStoredList, setStoredList, hg, hs, isOk_ok]
  · intro hr
    simp [clearAllNotifications, hr, isOk_ok]
  · intro hg
    unfold refreshNotifications getStoredList
    simp [hg]
    split <;> simp [isOk_ok]

/-- C1, witness: the amended theorem evaluated in a fully working
environment shows the mutation operations, `clearAll` and `refresh`
complete without an exception there. -/
theorem claim1_witness :
    (markAsRead env4same st4 "1").isOk = true ∧
    (clearAllNotifications env4same st4).isOk = true ∧
    (refreshNotifications env4same st4).isOk = true :=
  ⟨((claim1_amended env4same st4 "1" "u" new4 new4u).2.2.1 rfl rfl).1,
   (claim1_amended env4same st4 "1" "u" new4 new4u).2.2.2.1 rfl,
   (claim1_amended env4same st4 "1" "u" new4 new4u).2.2.2.2 rfl⟩

/-- C3, counterexample: when the durable-store read throws (and the
remote fetch yields nothing), `refreshNotifications` propagates the
exception while resetting the debounce timestamp and running `list()`
returns safely, so the two are not observably identical. -/
theorem claim3_counterexample :
    (refreshNotifications envGetFails st4).isOk = false ∧
    (getNotifications envGetFails { st4 with lastApiCallTime := 0 }).isOk = true :=
  ⟨rfl, rfl⟩

/-- C3, amended: whenever the durable-store read does not throw,
`refresh()` is observably identical to resetting the debounce timestamp
to epoch and running `list()`: same returned value, same resulting
state, and same broadcasts. -/
theorem claim3_amended (env : Env) (s : St) (h : env.storageGetFails = false) :
    refreshNotifications env s = getNotifications env { s with lastApiCallTime := 0 } := by
  unfold refreshNotifications getNotifications getStoredList
  simp [h]

/-- C3, witness: the amended equivalence evaluated in a fully working
environment. -/
theorem claim3_witness :
    refreshNotifications env4same st4 =
      getNotifications env4same { st4 with lastApiCallTime := 0 } :=
  claim3_amended env4same st4 rfl

/-! Helper lemmas about the remote fetch and the post-state of
`getNotifications`. -/

theorem fetch_debounced (env : Env) (s : St)
    (h : env.now - s.lastApiCallTime < apiCallDebounceMs) :
    fetchNotificationsFromAPI env s = ([], s, false) := by
  unfold fetchNotificationsFromAPI
  simp [h]

theorem fetch_post_last (env : Env) (s : St) :
    ((fetchNotificationsFromAPI env s).2.1).lastApiCallTime =
      if env.now - s.lastApiCallTime < apiCallDebounceMs then s.lastApiCallTime
      else env.now := by
  unfold fetchNotificationsFromAPI getCurrentUser
  by_cases h : env.now - s.lastApiCallTime < apiCallDebounceMs
  · simp [h]
  · simp only [h, if_false]
    cases env.user with
    | fails => simp
    | noUser => simp
    | found u =>
      cases ht : resolveToken u with
      | none => simp [ht]
      | some t => cases env.api <;> simp [ht]

theorem fetch_did_imp (env : Env) (s : St)
    (h : (fetchNotificationsFromAPI env s).2.2 = true) :
    ¬env.now - s.lastApiCallTime < apiCallDebounceMs ∧
      (fetchNotificationsFromAPI env s).2.1.lastApiCallTime = env.now := by
  by_cases hd : env.now - s.lastApiCallTime < apiCallDebounceMs
  · rw [fetch_debounced env s hd] at h
    simp at h
  · refine ⟨hd, ?_⟩
    rw [fetch_post_last]
    simp [hd]

theorem getNotifications_post (env : Env) (s : St)
    (r : List Notification × St × Broadcasts)
    (h : getNotifications env s = .ok r) :
    r.2.1.lastApiCallTime = (fetchNotificationsFromAPI env s).2.1.lastApiCallTime := by
  revert h
  unfold getNotifications getStoredList saveNotifications
  by_cases hl : 0 < (fetchNotificationsFromAPI env s).1.length
  · by_cases hset : env.storageSetFails <;> simp [hl, hset] <;> intro h <;> subst h <;> simp
  · by_cases hg : env.storageGetFails <;> simp [hl, hg] <;> intro h <;> subst h <;> simp

/-- C5: a `list()` call runs the debounce check against the last-attempt
timestamp and returns empty without contacting the remote endpoint when
the window has not elapsed; consequently, for two `list()` calls with no
intervening `refresh()` whose start instants differ by less than the
3000 ms window, at most one of the two issues a remote fetch request. -/
theorem claim5_theorem (env1 env2 : Env) (s : St)
    (r1 : List Notification × St × Broadcasts)
    (hrun : getNotifications env1 s = .ok r1)
    (hclose : env2.now < env1.now + apiCallDebounceMs) :
    (env2.now - r1.2.1.lastApiCallTime < apiCallDebounceMs →
      fetchNotificationsFromAPI env2 r1.2.1 = ([], r1.2.1, false)) ∧
    ¬((fetchNotificationsFromAPI env1 s).2.2 = true ∧
      (fetchNotificationsFromAPI env2 r1.2.1).2.2 = true) := by
  constructor
  · exact fetch_debounced env2 r1.2.1
  · rintro ⟨hd1, hd2⟩
    obtain ⟨hnd, hlast⟩ := fetch_did_imp env1 s hd1
    have hpost : r1.2.1.lastApiCallTime = env1.now := by
      rw [getNotifications_post env1 s r1 hrun, hlast]
    have hdeb : env2.now - r1.2.1.lastApiCallTime < apiCallDebounceMs := by
      rw [hpost]
      have ha : apiCallDebounceMs = 3000 := rfl
      omega
    rw [fetch_debounced env2 r1.2.1 hdeb] at hd2
    simp at hd2

/-- C5, witness: the theorem applied to `list()` calls at instants 3000
and 3001 on a fresh store shows the second call's fetch is debounced. -/
theorem claim5_witness :
    fetchNotificationsFromAPI envAt3001 stPost3000 = ([], stPost3000, false) :=
  (claim5_theorem envAt3000 envAt3001 st4 ([], stPost3000, []) rfl (by decide)).1
    (by decide)

/-- C10: the remote-fetch routine writes the last-attempt timestamp
before checking identity and credential, so a `list()` call outside the
debounce window whose fetch aborts for a missing identity or missing
token (issuing no remote request) still consumes the window: the fetch
of any `list()` call issued within 3000 ms afterwards contacts no remote
endpoint and returns empty, even if an identity and credential are
available then. -/
theorem claim10_theorem (env1 env2 : Env) (s : St)
    (r1 : List Notification × St × Broadcasts)
    (hwin : apiCallDebounceMs ≤ env1.now - s.lastApiCallTime)
    (habort : env1.user = .noUser ∨ ∃ u, env1.user = .found u ∧ resolveToken u = none)
    (hrun : getNotifications env1 s = .ok r1)
    (hclose : env2.now < env1.now + apiCallDebounceMs) :
    (fetchNotificationsFromAPI env1 s).2.2 = false ∧
    r1.2.1.lastApiCallTime = env1.now ∧
    fetchNotificationsFromAPI env2 r1.2.1 = ([], r1.2.1, false) := by
  have hnd : ¬env1.now - s.lastApiCallTime < apiCallDebounceMs := by omega
  have h1 : (fetchNotificationsFromAPI env1 s).2.2 = false := by
    unfold fetchNotificationsFromAPI getCurrentUser
    rcases habort with h | ⟨u, hu, ht⟩
    · simp [hnd, h]
    · simp [hnd, hu, ht]
  have hlast : (fetchNotificationsFromAPI env1 s).2.1.lastApiCallTime = env1.now := by
    rw [fetch_post_last]
    simp [hnd]
  have h2 : r1.2.1.lastApiCallTime = env1.now := by
    rw [getNotifications_post env1 s r1 hrun, hlast]
  have ha : apiCallDebounceMs = 3000 := rfl
  exact ⟨h1, h2, fetch_debounced env2 r1.2.1 (by rw [h2]; omega)⟩

/-- C10, witness: a `list()` at instant 3000 with no identity consumes
the window; at instant 3001, with the identity and its test credential
now available, the fetch still contacts nothing. -/
theorem claim10_witness :
    fetchNotificationsFromAPI envUserAt3001 stPost3000 = ([], stPost3000, false) :=
  (claim10_theorem envAt3000 envUserAt3001 st4 ([], stPost3000, []) (by decide)
    (Or.inl rfl) rfl (by decide)).2.2

/-- C6, counterexample: a notification whose `userId` field is set (to
the empty string, which is falsy in JavaScript) is visible to an
identity whose id differs from that `userId`, because the truthiness
check routes it into the role rules instead of the targeted rule. -/
theorem claim6_counterexample :
    nEmptyTarget.userId = some "" ∧ some "" ≠ some userOwner.id ∧
    filterNotificationsByUserType envOwner [nEmptyTarget] = [nEmptyTarget] :=
  ⟨rfl, by decide, rfl⟩

/-- C6, amended: for a notification whose `userId` is set to a non-empty
string and a resolved identity, visibility in the filtered view holds
exactly when the `userId` equals the identity's id, regardless of type
and role; and with no resolved identity the filter returns its input
unchanged. -/
theorem claim6_amended (env : Env) (u : User) (n : Notification)
    (ns : List Notification) (uid : String) (env2 : Env)
    (hu : env.user = .found u) (hid : n.userId = some uid) (hne : uid ≠ "")
    (hu2 : env2.user = .noUser) :
    (n ∈ filterNotificationsByUserType env ns ↔ n ∈ ns ∧ uid = u.id) ∧
    filterNotificationsByUserType env2 ns = ns := by
  constructor
  · unfold filterNotificationsByUserType getCurrentUser
    rw [hu]
    rw [List.mem_filter]
    unfold filterPredicate truthyS
    rw [hid]
    simp [hne]
  · unfold filterNotificationsByUserType getCurrentUser
    rw [hu2]

/-- C6, witness: the amended theorem shows the review notification
targeted at U2 is visible to the U2 pet-owner identity, and that an
unresolved identity leaves the list unchanged. -/
theorem claim6_witness :
    nTargeted ∈ filterNotificationsByUserType envOwner [nTargeted] ∧
    filterNotificationsByUserType env4same [nTargeted] = [nTargeted] :=
  ⟨(claim6_amended envOwner userOwner nTargeted [nTargeted] "U2" env4same
      rfl rfl (by decide) rfl).1.mpr ⟨by decide, rfl⟩,
   (claim6_amended envOwner userOwner nTargeted [nTargeted] "U2" env4same
      rfl rfl (by decide) rfl).2⟩

/-- C7: for an untargeted notification and a resolved non-pet-sitter
(pet-owner) identity, visibility in the filtered view coincides with the
specified pet-owner rule; in particular a review notification is never
visible and a booking with no status and neither title substring is not
visible. -/
theorem claim7_theorem (env : Env) (u : User) (n : Notification)
    (ns : List Notification)
    (hu : env.user = .found u) (hsit : isPetSitter u = false) (hid : n.userId = none) :
    (n ∈ filterNotificationsByUserType env ns ↔ n ∈ ns ∧ specOwnerVisible n) ∧
    (n.type = .review → n ∉ filterNotificationsByUserType env ns) ∧
    (n.type = .booking → n.data.bind NotifData.status = none →
      includes n.title "confirmed" = false → includes n.title "cancelled" = false →
      n ∉ filterNotificationsByUserType env ns) := by
  have hiff : n ∈ filterNotificationsByUserType env ns ↔ n ∈ ns ∧ specOwnerVisible n := by
    unfold filterNotificationsByUserType getCurrentUser
    rw [hu]
    rw [List.mem_filter]
    unfold filterPredicate truthyS
    rw [hid, hsit]
    simp only [Bool.false_eq_true, if_false, Bool.or_eq_true, Bool.and_eq_true,
      decide_eq_true_eq, specOwnerVisible]
    tauto
  refine ⟨hiff, ?_, ?_⟩
  · intro hrev hmem
    rcases (hiff.mp hmem).2 with h | h | ⟨h, _⟩ <;> simp_all
  · intro hbook hst hc1 hc2 hmem
    rcases (hiff.mp hmem).2 with h | h | ⟨_, h | h | h | h⟩ <;> simp_all

/-- C7, witness: a status-confirmed booking is visible to the pet owner,
a statusless booking with a neutral title is not. -/
theorem claim7_witness :
    nBookConf ∈ filterNotificationsByUserType envOwner [nBookConf] ∧
    nBookPlain ∉ filterNotificationsByUserType envOwner [nBookPlain] :=
  ⟨(claim7_theorem envOwner userOwner nBookConf [nBookConf] rfl rfl rfl).1.mpr
      ⟨by decide, Or.inr (Or.inr ⟨rfl, Or.inl rfl⟩)⟩,
   (claim7_theorem envOwner userOwner nBookPlain [nBookPlain] rfl rfl rfl).2.2
      rfl rfl (by decide) (by decide)⟩

/-- C8: with working storage, `delete(id)` persists exactly the entries
whose id differs (a `filter`, so all others are kept unchanged in their
relative order) and broadcasts the filtered view of that persisted list;
membership in the persisted list is characterised below, and when no
entry matches, the canonical list is left unchanged, so the unchanged
filtered list is still broadcast. -/
theorem claim8_theorem (env : Env) (s : St) (nid : String)
    (hget : env.storageGetFails = false) (hset : env.storageSetFails = false) :
    deleteNotification env s nid =
      .ok ({ s with stored := some ((s.stored.getD []).filter fun n => decide (n.id ≠ nid)) },
           [filterNotificationsByUserType env
              ((s.stored.getD []).filter fun n => decide (n.id ≠ nid))]) ∧
    (∀ n : Notification,
      n ∈ (s.stored.getD []).filter (fun n => decide (n.id ≠ nid)) ↔
        n ∈ s.stored.getD [] ∧ n.id ≠ nid) ∧
    ((∀ n ∈ s.stored.getD [], n.id ≠ nid) →
      (s.stored.getD []).filter (fun n => decide (n.id ≠ nid)) = s.stored.getD []) := by
  refine ⟨?_, ?_, ?_⟩
  · unfold deleteNotification getStoredList setStoredList
    simp [hget, hset]
  · intro n
    simp [List.mem_filter]
  · intro hnone
    apply List.filter_eq_self.mpr
    intro a ha
    simpa using hnone a ha

/-- C8, witness: deleting id 1 from a two-element store keeps exactly
the other record and broadcasts it. -/
theorem claim8_witness :
    deleteNotification env4same { stored := some [n4a, n4b] } "1" =
      .ok ({ stored := some [n4b], lastApiCallTime := 0, listeners := [] }, [[n4b]]) :=
  (claim8_theorem env4same { stored := some [n4a, n4b] } "1" rfl rfl).1

/-- C9, counterexample: after subscribing the same callback reference
twice, invoking one returned closure once empties the whole subscriber
array (the closure filters by reference and removes both registrations),
so the callback is no longer invoked on later broadcasts, contrary to
the claimed independence of duplicate subscriptions. -/
theorem claim9_counterexample :
    (unsubscribe (subscribe (subscribe st4 7) 7) 7).listeners = [] ∧
    notifyListeners (unsubscribe (subscribe (subscribe st4 7) 7) 7) [] = [] :=
  ⟨rfl, rfl⟩

/-- C9, amended: the closure returned by `subscribe` removes every
registration of that callback reference from the subscriber set, is an
idempotent no-op when invoked again, and registrations of distinct
callback references are independent: unsubscribing one leaves any
distinct callback registered, so it still receives later broadcasts. -/
theorem claim9_amended (s : St) (l l2 : Nat) (h : l2 ≠ l) :
    l ∉ (unsubscribe s l).listeners ∧
    unsubscribe (unsubscribe s l) l = unsubscribe s l ∧
    (l2 ∈ s.listeners → l2 ∈ (unsubscribe s l).listeners) ∧
    l2 ∈ (unsubscribe (subscribe (subscribe s l) l2) l).listeners ∧
    (l2, ([] : List Notification)) ∈
      notifyListeners (unsubscribe (subscribe (subscribe s l) l2) l) [] := by
  have hmem : l2 ∈ (unsubscribe (subscribe (subscribe s l) l2) l).listeners := by
    unfold unsubscribe subscribe
    simp [List.mem_filter, h]
  refine ⟨?_, ?_, ?_, hmem, ?_⟩
  · unfold unsubscribe
    simp [List.mem_filter]
  · unfold unsubscribe
    simp [List.filter_filter]
  · intro hm
    unfold unsubscribe
    simp [List.mem_filter, hm, h]
  · unfold notifyListeners
    simp only [List.mem_map]
    exact ⟨l2, hmem, rfl⟩

/-- C9, witness: with callbacks 9 and 8 subscribed, invoking the
unsubscribe closure of 9 leaves 8 registered. -/
theorem claim9_witness :
    (8 : Nat) ∈ (unsubscribe (subscribe (subscribe st4 9) 8) 9).listeners :=
  (claim9_amended st4 9 8 (by decide)).2.2.2.1

/-- C2, counterexample: on the remote-success path of `list()`, the
broadcast delivers the raw converted remote list (here containing a
review record), while the filtered view of that same canonical list for
the pet-owner identity is empty — subscribers receive the unfiltered
canonical list, not the filtered view. -/
theorem claim2_counterexample :
    ((getNotifications envC2 st4).toOption.map fun r => r.2.2) = some [[nRev]] ∧
    filterNotificationsByUserType envC2 [nRev] = [] :=
  ⟨rfl, rfl⟩

/-- C2, amended: every broadcast triggered by a mutation (append
targeted or untargeted, markRead, markAllRead, delete, clearAll)
delivers the identity/role-filtered view of the canonical list just
persisted; but on the remote-success path of `list()`/`refresh()` the
broadcast delivers the unfiltered canonical list itself. -/
theorem claim2_amended (env : Env) (s : St) (nid uid : String)
    (p : NewNotification) (q : NewUserNotification) :
    (∀ r, markAsRead env s nid = .ok r →
      r.2 = [filterNotificationsByUserType env (r.1.stored.getD [])]) ∧
    (∀ r, markAllAsRead env s = .ok r →
      r.2 = [filterNotificationsByUserType env (r.1.stored.getD [])]) ∧
    (∀ r, addNotification env s p = .ok r →
      r.2.2 = [filterNotificationsByUserType env (r.2.1.stored.getD [])]) ∧
    (∀ r, addNotificationForUser env s uid q = .ok r →
      r.2.2 = [filterNotificationsByUserType env (r.2.1.stored.getD [])]) ∧
    (∀ r, deleteNotification env s nid = .ok r →
      r.2 = [filterNotificationsByUserType env (r.1.stored.getD [])]) ∧
    (∀ r, clearAllNotifications env s = .ok r →
      r.2 = [filterNotificationsByUserType env (r.1.stored.getD [])]) ∧
    (∀ r, getNotifications env s = .ok r →
      0 < (fetchNotificationsFromAPI env s).1.length →
      env.storageSetFails = false →
      r.2.2 = [r.2.1.stored.getD []] ∧
      r.1 = filterNotificationsByUserType env (r.2.1.stored.getD [])) ∧
    (∀ r, refreshNotifications env s = .ok r →
      0 < (fetchNotificationsFromAPI env { s with lastApiCallTime := 0 }).1.length →
      env.storageSetFails = false →
      r.2.2 = [r.2.1.stored.getD []]) := by
  have hfilnil : filterNotificationsByUserType env [] = [] := by
    unfold filterNotificationsByUserType getCurrentUser
    cases env.user <;> simp
  refine ⟨?_, ?_, ?_, ?_, ?_, ?_, ?_, ?_⟩
  · intro r
    unfold markAsRead getStoredList setStoredList
    by_cases hg : env.storageGetFails <;> simp [hg]
    by_cases hs : env.storageSetFails <;> simp [hs]
    intro h
    subst h
    simp
  · intro r
    unfold markAllAsRead getStoredList setStoredList
    by_cases hg : env.storageGetFails <;> simp [hg]
    by_cases hs : env.storageSetFails <;> simp [hs]
    intro h
    subst h
    simp
  · intro r
    unfold addNotification getStoredList setStoredList
    by_cases hg : env.storageGetFails <;> simp [hg]
    by_cases hs : env.storageSetFails <;> simp [hs]
    intro h
    subst h
    simp
  · intro r
    unfold addNotificationForUser getStoredList setStoredList
    by_cases hg : env.storageGetFails <;> simp [hg]
    by_cases hs : env.storageSetFails <;> simp [hs]
    intro h
    subst h
    simp
  · intro r
    unfold deleteNotification getStoredList setStoredList
    by_cases hg : env.storageGetFails <;> simp [hg]
    by_cases hs : env.storageSetFails <;> simp [hs]
    intro h
    subst h
    simp
  · intro r
    unfold clearAllNotifications
    by_cases hr : env.storageRemoveFails <;> simp [hr]
    intro h
    subst h
    simp [hfilnil]
  · intro r
    unfold getNotifications saveNotifications
    intro h hl hs
    rw [if_pos hl] at h
    rw [if_neg (by simp [hs])] at h
    simp only [Except.ok.injEq] at h
    subst h
    simp
  · intro r
    unfold refreshNotifications saveNotifications
    intro h hl hs
    rw [if_pos hl] at h
    rw [if_neg (by simp [hs])] at h
    simp only [Except.ok.injEq] at h
    subst h
    simp

/-- C2, witness: marking id 1 read broadcasts exactly the filtered view
of the persisted list. -/
theorem claim2_witness :
    ([[{ n4a with isRead := true }]] : Broadcasts) =
      [filterNotificationsByUserType env4same [{ n4a with isRead := true }]] :=
  (claim2_amended env4same { stored := some [n4a] } "1" "u" new4 new4u).1
    ({ stored := some [{ n4a with isRead := true }] }, [[{ n4a with isRead := true }]])
    rfl

end NotificationStore
